import Mathlib

/-!
Verification of the pay-equity / fairness statistical module
(`src/services/fairness_utils.py`) of the SMART-RESUME-ANALYZER repository.

The Python module computes with IEEE floats via numpy/scipy.  We embed the
numeric values as `NpFloat`: either a finite rational, one of the two
infinities, or NaN, mirroring numpy scalar semantics (division by zero gives
inf/NaN and a warning, it does not raise).  Plain *Python* float division,
by contrast, raises `ZeroDivisionError`; places in the source that divide
native floats are therefore embedded in the `Except String` monad.

External library routines that the module calls (`np.sqrt` on a positive
argument, scipy's Student-t CDF `stdtr`) are transcendental; they are
embedded as parameters (`ExternalFns`) whose behaviour on the boundary
values (0, infinities, NaN) is fixed to the library's documented behaviour,
and whose finite positive branch is abstract.
-/

/-- Model of a numpy float64 scalar: NaN, the infinities, or a finite value
(we identify all finite floats with rationals and ignore signed zero). -/
inductive NpFloat where
  | nan : NpFloat
  | posInf : NpFloat
  | negInf : NpFloat
  | val : ℚ → NpFloat
deriving DecidableEq, Repr

namespace NpFloat

/-- Negation of a numpy scalar. -/
def npNeg : NpFloat → NpFloat
  | nan => nan
  | posInf => negInf
  | negInf => posInf
  | val q => val (-q)

/-- Absolute value of a numpy scalar. -/
def npAbs : NpFloat → NpFloat
  | nan => nan
  | posInf => posInf
  | negInf => posInf
  | val q => val |q|

/-- Addition of numpy scalars (IEEE: NaN propagates, opposite infinities
give NaN). -/
def npAdd : NpFloat → NpFloat → NpFloat
  | nan, _ => nan
  | _, nan => nan
  | posInf, negInf => nan
  | negInf, posInf => nan
  | posInf, _ => posInf
  | _, posInf => posInf
  | negInf, _ => negInf
  | _, negInf => negInf
  | val a, val b => val (a + b)

/-- Subtraction, defined as in IEEE by `a + (-b)`. -/
def npSub (a b : NpFloat) : NpFloat := npAdd a (npNeg b)

/-- Multiplication of numpy scalars (inf times zero is NaN). -/
def npMul : NpFloat → NpFloat → NpFloat
  | nan, _ => nan
  | _, nan => nan
  | val a, val b => val (a * b)
  | posInf, val b => if b = 0 then nan else if 0 < b then posInf else negInf
  | val a, posInf => if a = 0 then nan else if 0 < a then posInf else negInf
  | negInf, val b => if b = 0 then nan else if 0 < b then negInf else posInf
  | val a, negInf => if a = 0 then nan else if 0 < a then negInf else posInf
  | posInf, posInf => posInf
  | posInf, negInf => negInf
  | negInf, posInf => negInf
  | negInf, negInf => posInf

/-- Division of numpy scalars: `x/0` is `±inf` for `x ≠ 0` and NaN for
`0/0` (numpy emits a RuntimeWarning, not an exception). -/
def npDiv : NpFloat → NpFloat → NpFloat
  | nan, _ => nan
  | _, nan => nan
  | val a, val b =>
      if b = 0 then (if a = 0 then nan else if 0 < a then posInf else negInf)
      else val (a / b)
  | val _, posInf => val 0
  | val _, negInf => val 0
  | posInf, val b => if 0 ≤ b then posInf else negInf
  | negInf, val b => if 0 ≤ b then negInf else posInf
  | posInf, posInf => nan
  | posInf, negInf => nan
  | negInf, posInf => nan
  | negInf, negInf => nan

/-- `x < c` for a rational threshold `c`; false when `x` is NaN, exactly as
an IEEE comparison with NaN evaluates to false. -/
def npLtQ : NpFloat → ℚ → Bool
  | nan, _ => false
  | posInf, _ => false
  | negInf, _ => true
  | val q, c => decide (q < c)

/-- `x > c` for a rational threshold `c`; false when `x` is NaN. -/
def npGtQ : NpFloat → ℚ → Bool
  | nan, _ => false
  | posInf, _ => true
  | negInf, _ => false
  | val q, c => decide (c < q)

/-- `x ≥ c` for a rational threshold `c`; false when `x` is NaN. -/
def npGeQ : NpFloat → ℚ → Bool
  | nan, _ => false
  | posInf, _ => true
  | negInf, _ => false
  | val q, c => decide (c ≤ q)

/-- `np.sqrt`: NaN on NaN and negative arguments, exactly 0 at 0, and an
abstract finite positive branch `S` elsewhere. -/
def npSqrt (S : ℚ → ℚ) : NpFloat → NpFloat
  | nan => nan
  | posInf => posInf
  | negInf => nan
  | val q => if q < 0 then nan else if q = 0 then val 0 else val (S q)

/-- `np.mean` of a rational list: NaN on the empty list. -/
def npMean (xs : List ℚ) : NpFloat :=
  if xs.isEmpty then nan else val (xs.sum / xs.length)

/-- `np.var` with `ddof=0` (population variance): NaN on the empty list. -/
def npVarPop (xs : List ℚ) : NpFloat :=
  if xs.isEmpty then nan
  else val ((xs.map (fun x => (x - xs.sum / xs.length) ^ 2)).sum / xs.length)

/-- `np.var` with `ddof=1` (sample variance): NaN for fewer than two
elements (numpy returns `0/0`). -/
def npVarSample (xs : List ℚ) : NpFloat :=
  if xs.length ≤ 1 then nan
  else val ((xs.map (fun x => (x - xs.sum / xs.length) ^ 2)).sum / (xs.length - 1))

end NpFloat

open NpFloat

/-- The abstract finite branches of the external numeric routines used by
the module: `sqrtApprox` stands for `np.sqrt` on positive rationals and
`stdtrApprox df x` for scipy's Student-t CDF `stdtr(df, x)` at finite `x`. -/
structure ExternalFns where
  sqrtApprox : ℚ → ℚ
  stdtrApprox : ℚ → ℚ → ℚ

/-- A concrete instantiation of the external routines (used to evaluate the
model at specific inputs; the claims proved below never depend on the
finite branches). -/
def extId : ExternalFns := ⟨fun q => q, fun _ x => x⟩

/-- scipy's `stdtr(df, x)` lifted to numpy scalars: the CDF is 0 at `-inf`,
1 at `+inf`, and NaN propagates. -/
def stdtrNp (F : ℚ → ℚ → ℚ) (df : ℚ) : NpFloat → NpFloat
  | NpFloat.nan => NpFloat.nan
  | NpFloat.posInf => NpFloat.val 1
  | NpFloat.negInf => NpFloat.val 0
  | NpFloat.val x => NpFloat.val (F df x)

/-- Result record of `compute_statistical_significance`
(fairness_utils.py lines 73-105). -/
structure SigResult where
  t_statistic : NpFloat
  p_value : NpFloat
  cohens_d : NpFloat
  effect_size : String
  significant : Bool
deriving DecidableEq, Repr

/-- The pooled standard deviation used for Cohen's d
(fairness_utils.py line 85):
`np.sqrt(((n1-1)*np.var(g1) + (n2-1)*np.var(g2)) / (n1+n2-2))`
with `np.var` the population variance. -/
def pooled_sd (ext : ExternalFns) (g1 g2 : List ℚ) : NpFloat :=
  let n1 : ℚ := g1.length
  let n2 : ℚ := g2.length
  npSqrt ext.sqrtApprox
    (npDiv (npAdd (npMul (NpFloat.val (n1 - 1)) (npVarPop g1))
                  (npMul (NpFloat.val (n2 - 1)) (npVarPop g2)))
           (NpFloat.val (n1 + n2 - 2)))

/-- The Student t statistic computed by `scipy.stats.ttest_ind` with
`equal_var=True` (fairness_utils.py line 81): the pooled *sample* variance
`svar = ((n1-1)*v1 + (n2-1)*v2)/df` and
`t = (mean1 - mean2) / sqrt(svar * (1/n1 + 1/n2))`. -/
def ttest_t (ext : ExternalFns) (g1 g2 : List ℚ) : NpFloat :=
  let n1 : ℚ := g1.length
  let n2 : ℚ := g2.length
  let df : ℚ := n1 + n2 - 2
  let svar := npDiv (npAdd (npMul (NpFloat.val (n1 - 1)) (npVarSample g1))
                           (npMul (NpFloat.val (n2 - 1)) (npVarSample g2)))
                    (NpFloat.val df)
  let denom := npSqrt ext.sqrtApprox (npMul svar (NpFloat.val (1 / n1 + 1 / n2)))
  npDiv (npSub (npMean g1) (npMean g2)) denom

/-- The two-sided p-value of `scipy.stats.ttest_ind`:
`p = stdtr(df, -|t|) * 2`. -/
def ttest_p (ext : ExternalFns) (g1 g2 : List ℚ) : NpFloat :=
  let df : ℚ := (g1.length : ℚ) + (g2.length : ℚ) - 2
  npMul (stdtrNp ext.stdtrApprox df (npNeg (npAbs (ttest_t ext g1 g2)))) (NpFloat.val 2)

/-- Cohen's d (fairness_utils.py line 86):
`(np.mean(g1) - np.mean(g2)) / pooled_sd` — numpy scalar division, so a
zero pooled standard deviation yields NaN (equal means) or ±inf, never an
exception. -/
def cohens_d (ext : ExternalFns) (g1 g2 : List ℚ) : NpFloat :=
  npDiv (npSub (npMean g1) (npMean g2)) (pooled_sd ext g1 g2)

/-- The effect-size label loop (fairness_utils.py lines 89-97): the first
of the thresholds 0.8, 0.5, 0.2 that `|d|` reaches wins; a NaN `d` fails
every comparison and keeps the label "negligible". -/
def effect_size_label (d : NpFloat) : String :=
  if npGeQ (npAbs d) (4 / 5) then "large"
  else if npGeQ (npAbs d) (1 / 2) then "medium"
  else if npGeQ (npAbs d) (1 / 5) then "small"
  else "negligible"

/-- `compute_statistical_significance` (fairness_utils.py lines 73-105):
t-test via scipy, Cohen's d via the pooled population standard deviation,
effect-size label, and `significant = p_value < 0.05` (false when the
p-value is NaN, as the IEEE comparison is). -/
def compute_statistical_significance (ext : ExternalFns) (g1 g2 : List ℚ) : SigResult :=
  let t := ttest_t ext g1 g2
  let p := ttest_p ext g1 g2
  let d := cohens_d ext g1 g2
  { t_statistic := t
    p_value := p
    cohens_d := d
    effect_size := effect_size_label d
    significant := npLtQ p (1 / 20) }

/-!
## Group statistics and pay-gap analysis

Group labels in `compute_pay_gap` are iterated in the order of the Python
expression `set(groups)`, which is unspecified (string hashing is
randomized per process).  The embedding therefore takes the iteration
order as an explicit argument `group_labels`, constrained by
`validLabelOrder` to be a duplicate-free enumeration of the distinct
labels; properties that hold for every valid order hold for the program.

Salaries are in the `Except String` monad where the Python code can raise
(`ZeroDivisionError` on native-float division by zero, `KeyError` on a
missing dict key, `ImportError`/`ValueError` inside the trend branch).
-/

/-- `sorted(xs)`: the ascending sort numpy performs before interpolating
percentiles. -/
def sortedAsc (xs : List ℚ) : List ℚ := xs.insertionSort (· ≤ ·)

/-- `np.percentile(xs, p)` with the default linear interpolation:
`rank = p/100 * (n-1)`, `lo = ⌊rank⌋`, and the value is
`s[lo] + (rank - lo) * (s[hi] - s[lo])` with `hi = min (lo+1) (n-1)`. -/
def npPercentile (xs : List ℚ) (p : ℚ) : ℚ :=
  let s := sortedAsc xs
  let n := s.length
  let rank : ℚ := p / 100 * ((n : ℚ) - 1)
  let lo : ℕ := (Int.floor rank).toNat
  let hi : ℕ := min (lo + 1) (n - 1)
  s.getD lo 0 + (rank - (lo : ℚ)) * (s.getD hi 0 - s.getD lo 0)

/-- `np.median`, which equals the 50th linearly-interpolated percentile. -/
def npMedian (xs : List ℚ) : ℚ := npPercentile xs 50

/-- `np.mean` on a group's salary list.  Groups materialized by
`compute_pay_gap` are always non-empty, so the finite rational value is
taken directly (the empty-list NaN case of `npMean` cannot occur there). -/
def listMean (xs : List ℚ) : ℚ := xs.sum / xs.length

/-- The population variance underlying `np.std` on a group's salary list. -/
def listVarPop (xs : List ℚ) : ℚ :=
  (xs.map (fun x => (x - listMean xs) ^ 2)).sum / xs.length

/-- Result record of `compute_temporal_trend`
(fairness_utils.py lines 268-294). -/
structure TrendResult where
  slope : ℚ
  r2 : ℚ
  trend_direction : String
  significant : Bool
deriving DecidableEq, Repr

/-- `compute_temporal_trend` (fairness_utils.py lines 268-294).
Timestamps are modelled at day granularity as integers, so the Python
`(t - t0).days` is integer subtraction.  The source first evaluates
`min(timestamps)` (raising `ValueError` on an empty list), then raises
`ImportError` if scikit-learn is unavailable, and otherwise fits an
ordinary least-squares line of `values` over elapsed days:
`slope = Sxy/Sxx` (0 when the regressor is constant, matching the
minimum-norm least-squares solution) and `r2 = r2_score(y, ŷ)`, which is
`1 - SSres/SStot`, with sklearn's conventions `1` when both sums vanish
and `0` when only `SStot` does. -/
def compute_temporal_trend (sklearnAvailable : Bool)
    (values : List ℚ) (timestamps : List ℤ) : Except String TrendResult :=
  match timestamps with
  | [] => .error "ValueError: min() arg is an empty sequence"
  | t :: ts =>
    let t0 : ℤ := ts.foldl min t
    let days : List ℚ := (t :: ts).map (fun x => ((x - t0 : ℤ) : ℚ))
    if !sklearnAvailable then
      .error "ImportError: scikit-learn is required for temporal trend computation"
    else
      let xbar : ℚ := listMean days
      let ybar : ℚ := listMean values
      let sxx : ℚ := (days.map (fun x => (x - xbar) ^ 2)).sum
      let sxy : ℚ := ((days.zip values).map (fun p => (p.1 - xbar) * (p.2 - ybar))).sum
      let slope : ℚ := if sxx = 0 then 0 else sxy / sxx
      let intercept : ℚ := ybar - slope * xbar
      let ssres : ℚ := ((days.zip values).map
        (fun p => (p.2 - (slope * p.1 + intercept)) ^ 2)).sum
      let sstot : ℚ := (values.map (fun y => (y - ybar) ^ 2)).sum
      let r2 : ℚ := if sstot = 0 then (if ssres = 0 then 1 else 0) else 1 - ssres / sstot
      .ok { slope := slope
            r2 := r2
            trend_direction := if slope > 0 then "increasing" else "decreasing"
            significant := r2 > 3 / 5 }

/-- Per-group statistics record built by `_compute_group_statistics`
(fairness_utils.py lines 107-129). -/
structure GroupStats where
  mean_salary : ℚ
  median_salary : ℚ
  std_salary : NpFloat
  count : ℕ
  quartiles : List ℚ
  trend : Option TrendResult
deriving DecidableEq, Repr

/-- The index list `[i for i, grp in enumerate(groups) if grp == g]`. -/
def group_indices (groups : List String) (g : String) : List ℕ :=
  (groups.enum.filter (fun p => p.2 = g)).map Prod.fst

/-- `_compute_group_statistics` (fairness_utils.py lines 107-129): mean,
median, population standard deviation, count and quartiles of the group's
salaries; a trend is added only when the timestamp list is truthy
(present and non-empty).  Callers guarantee `salaries`, `groups` and
`timestamps` have equal lengths (spec section 6), so the `getD` default
is never read. -/
def _compute_group_statistics (ext : ExternalFns) (sklearnAvailable : Bool)
    (salaries : List ℚ) (indices : List ℕ) (timestamps : Option (List ℤ)) :
    Except String GroupStats :=
  let g_salaries := indices.map (fun i => salaries.getD i 0)
  let base : GroupStats :=
    { mean_salary := listMean g_salaries
      median_salary := npMedian g_salaries
      std_salary := npSqrt ext.sqrtApprox (NpFloat.val (listVarPop g_salaries))
      count := g_salaries.length
      quartiles := [npPercentile g_salaries 25, npPercentile g_salaries 50,
                    npPercentile g_salaries 75]
      trend := none }
  match timestamps with
  | none => .ok base
  | some ts =>
    if ts.isEmpty then .ok base
    else
      match compute_temporal_trend sklearnAvailable g_salaries
          (indices.map (fun i => ts.getD i 0)) with
      | .error e => .error e
      | .ok tr => .ok { base with trend := some tr }

/-- One entry of the `gaps` mapping built by `_compute_group_gaps`
(fairness_utils.py lines 131-157). -/
structure GapEntry where
  gap_percentage : ℚ
  statistical_significance : SigResult
  reference_group : String
deriving DecidableEq, Repr

/-- The loop body of `_compute_group_gaps` (fairness_utils.py lines
142-155), written as structural recursion over the label iteration order.
The gap percentage divides native Python floats, so a reference median of
exactly zero raises `ZeroDivisionError`; a label missing from `data`
would raise `KeyError`. -/
def gapsLoop (ext : ExternalFns) (data : List (String × GroupStats))
    (salaries : List ℚ) (groups : List String) (reference_stats : String)
    (ref_salaries : List ℚ) :
    List String → List (String × GapEntry) → Except String (List (String × GapEntry))
  | [], acc => .ok acc
  | g :: rest, acc =>
    if g ≠ reference_stats then
      match data.lookup reference_stats, data.lookup g with
      | some refStats, some gStats =>
        if refStats.median_salary = 0 then
          .error "ZeroDivisionError: float division by zero"
        else
          let g_salaries := ((salaries.zip groups).filter (fun p => p.2 = g)).map Prod.fst
          let gap_pct := (refStats.median_salary - gStats.median_salary) /
            refStats.median_salary * 100
          gapsLoop ext data salaries groups reference_stats ref_salaries rest
            (acc ++ [(g, { gap_percentage := gap_pct
                           statistical_significance :=
                             compute_statistical_significance ext ref_salaries g_salaries
                           reference_group := reference_stats })])
      | _, _ => .error "KeyError"
    else gapsLoop ext data salaries groups reference_stats ref_salaries rest acc

/-- `_compute_group_gaps` (fairness_utils.py lines 131-157). -/
def _compute_group_gaps (ext : ExternalFns) (data : List (String × GroupStats))
    (salaries : List ℚ) (groups : List String) (reference_stats : String)
    (group_labels : List String) : Except String (List (String × GapEntry)) :=
  let ref_salaries :=
    ((salaries.zip groups).filter (fun p => p.2 = reference_stats)).map Prod.fst
  gapsLoop ext data salaries groups reference_stats ref_salaries group_labels []

/-- The statistics-and-reference loop of `compute_pay_gap`
(fairness_utils.py lines 172-181), as structural recursion over the label
iteration order: labels with an empty index list are skipped, and the
reference moves to `g` only when `g`'s count strictly exceeds the current
reference's count as recorded in `data`. -/
def payGapLoop (ext : ExternalFns) (sklearnAvailable : Bool)
    (salaries : List ℚ) (groups : List String) (timestamps : Option (List ℤ)) :
    List String → List (String × GroupStats) × Option String →
    Except String (List (String × GroupStats) × Option String)
  | [], acc => .ok acc
  | g :: rest, acc =>
    let g_indices := group_indices groups g
    if g_indices.isEmpty then
      payGapLoop ext sklearnAvailable salaries groups timestamps rest acc
    else
      match _compute_group_statistics ext sklearnAvailable salaries g_indices timestamps with
      | .error e => .error e
      | .ok stats_data =>
        match acc.2 with
        | none =>
          payGapLoop ext sklearnAvailable salaries groups timestamps rest
            (acc.1 ++ [(g, stats_data)], some g)
        | some r =>
          match acc.1.lookup r with
          | none => .error "KeyError"
          | some rs =>
            payGapLoop ext sklearnAvailable salaries groups timestamps rest
              (acc.1 ++ [(g, stats_data)],
               if stats_data.count > rs.count then some g else some r)

/-- Result record of `compute_pay_gap` (fairness_utils.py lines 159-192). -/
structure PayGapResult where
  group_stats : List (String × GroupStats)
  gaps : List (String × GapEntry)
  reference_group : Option String
deriving DecidableEq, Repr

/-- `compute_pay_gap` (fairness_utils.py lines 159-192): per-group
statistics with the largest-count group as reference, then gaps against
the reference when the reference label is truthy (a non-`None`,
non-empty string) and at least two groups are present. -/
def compute_pay_gap (ext : ExternalFns) (sklearnAvailable : Bool)
    (salaries : List ℚ) (groups : List String) (group_labels : List String)
    (timestamps : Option (List ℤ)) : Except String PayGapResult :=
  match payGapLoop ext sklearnAvailable salaries groups timestamps group_labels ([], none) with
  | .error e => .error e
  | .ok (data, reference_stats) =>
    match reference_stats with
    | some r =>
      if r ≠ "" ∧ data.length ≥ 2 then
        match _compute_group_gaps ext data salaries groups r group_labels with
        | .error e => .error e
        | .ok gaps =>
          .ok { group_stats := data, gaps := gaps, reference_group := reference_stats }
      else .ok { group_stats := data, gaps := [], reference_group := reference_stats }
    | none => .ok { group_stats := data, gaps := [], reference_group := none }

/-- A duplicate-free enumeration of the distinct labels of `groups`: the
possible iteration orders of the Python expression `set(groups)`. -/
def validLabelOrder (groups order : List String) : Prop :=
  order.Nodup ∧ (∀ g ∈ order, g ∈ groups) ∧ (∀ g ∈ groups, g ∈ order)

instance (groups order : List String) : Decidable (validLabelOrder groups order) := by
  unfold validLabelOrder; infer_instance

/-!
## Bias metrics guard and report pipeline
-/

/-- Inputs of `compute_bias_metrics` (fairness_utils.py lines 194-208). -/
structure BiasInput where
  y_true : List ℤ
  y_pred : List ℤ
  sensitive_features : List (String × List String)
deriving DecidableEq, Repr

/-- `compute_bias_metrics` (fairness_utils.py lines 194-262): the first
statement raises `ImportError` when fairlearn is unavailable; the rest of
the function is a sequence of fairlearn `MetricFrame` computations,
abstracted here as the parameter `body` (the claims below concern only
the guard). -/
def compute_bias_metrics {α : Type} (fairlearnAvailable : Bool)
    (body : BiasInput → α) (inp : BiasInput) : Except String α :=
  if !fairlearnAvailable then
    .error "ImportError: Fairlearn not installed"
  else .ok (body inp)

/-- The fields of one attribute entry of a `bias_metrics` analysis result
that the report pipeline reads: `overall.demographic_parity`,
`overall.equalized_odds`, and for each metric name the per-group
`significant` booleans of `metric_significance`. -/
structure BiasAttrOverall where
  demographic_parity : ℚ
  equalized_odds : ℚ
  metric_significance : List (String × List (String × Bool))
deriving DecidableEq, Repr

/-- The fields of a `trends` analysis input that the pipeline reads: the
optional `historical_metrics` mapping (metric name to value series) and
the optional `increasing_disparity` flag. -/
structure TrendsInput where
  historical_metrics : Option (List (String × List ℚ))
  increasing_disparity : Option Bool
deriving DecidableEq, Repr

/-- The `analysis_results` dictionary consumed by
`calculate_overall_fairness_score` and `generate_fairness_report`, with
each recognized key optional. -/
structure AnalysisResults where
  pay_gap : Option PayGapResult
  bias_metrics : Option (List (String × BiasAttrOverall))
  trends : Option TrendsInput
deriving DecidableEq, Repr

/-- Python's `max(iterable, default=0)`: the default is returned only for
an empty iterable, otherwise the true maximum (which may be negative). -/
def pyMaxD0 (l : List ℚ) : ℚ :=
  match l with
  | [] => 0
  | x :: xs => xs.foldl max x

/-- The component weights of `calculate_overall_fairness_score`
(fairness_utils.py lines 411-415); `weights.get(component, 1)`. -/
def fairnessWeight (component : String) : ℚ :=
  if component = "pay_gap" then 2 / 5
  else if component = "bias_metrics" then 3 / 10
  else if component = "trend" then 3 / 10
  else 1

/-- The `score_components` list built by `calculate_overall_fairness_score`
(fairness_utils.py lines 417-440): a pay-gap score
`max(0, 1 - max|gap|/20)` when `pay_gap` is present, the mean of
`1 - |demographic_parity|` and `1 - |equalized_odds|` over attributes when
`bias_metrics` is present with at least one attribute, and a trend score
of 1 or 0.5 when `trends` carries an `increasing_disparity` flag. -/
def score_components (inp : AnalysisResults) : List (String × ℚ) :=
  (match inp.pay_gap with
   | some pg =>
     let max_gap := pyMaxD0 ((pg.gaps.map (fun p => |p.2.gap_percentage|)))
     [("pay_gap", max 0 (1 - max_gap / 20))]
   | none => []) ++
  (match inp.bias_metrics with
   | some bm =>
     let bias_scores := bm.flatMap
       (fun p => [1 - |p.2.demographic_parity|, 1 - |p.2.equalized_odds|])
     if bias_scores.isEmpty then [] else [("bias_metrics", listMean bias_scores)]
   | none => []) ++
  (match inp.trends with
   | some t =>
     match t.increasing_disparity with
     | some b => [("trend", if !b then 1 else 1 / 2)]
     | none => []
   | none => [])

/-- `calculate_overall_fairness_score` (fairness_utils.py lines 406-454):
the weighted average of the present component scores, or 0.0 when no
recognized component is present. -/
def calculate_overall_fairness_score (inp : AnalysisResults) : ℚ :=
  let comps := score_components inp
  if comps.isEmpty then 0
  else
    ((comps.map (fun p => fairnessWeight p.1 * p.2)).sum) /
      ((comps.map (fun p => fairnessWeight p.1)).sum)

/-- One per-metric record of `identify_long_term_trends`
(fairness_utils.py lines 482-487).  `significance` is the R-squared of
the degree-1 polyfit; it is NaN (modelled `none`) when the series is
constant, and the `concerning` flag is `slope > 0 and r_squared > 0.7`
(false when the R-squared is NaN, as the IEEE comparison is). -/
structure LongTermRec where
  direction : String
  strength : ℚ
  significance : Option ℚ
  concerning : Bool
deriving DecidableEq, Repr

/-- The union shape returned by the three trend analyses: either the
`{"status": "insufficient_data"}` dictionary or a mapping from metric
names to result records. -/
inductive StatusOr (α : Type) where
  | insufficient : StatusOr α
  | results : List (String × α) → StatusOr α
deriving DecidableEq, Repr

/-- The `np.polyfit(x, y, 1)` slope over `x = 0, 1, ..., n-1`:
`Sxy / Sxx` (with at least `min_periods ≥ 4` points, `Sxx` is positive). -/
def polyfitSlope (values : List ℚ) : ℚ :=
  let n := values.length
  let xs : List ℚ := (List.range n).map (fun i => (i : ℚ))
  let xbar := listMean xs
  let ybar := listMean values
  ((xs.zip values).map (fun p => (p.1 - xbar) * (p.2 - ybar))).sum /
    (xs.map (fun x => (x - xbar) ^ 2)).sum

/-- `identify_long_term_trends` (fairness_utils.py lines 456-489):
`{"status": "insufficient_data"}` when no `historical_metrics` key is
present; otherwise, for each metric with at least `min_periods` values,
the polyfit slope, `r_squared = 1 - SSres/SStot` (NaN for a constant
series) and the `concerning` flag. -/
def identify_long_term_trends (trends : TrendsInput) (min_periods : ℕ) :
    StatusOr LongTermRec :=
  match trends.historical_metrics with
  | none => .insufficient
  | some metrics =>
    .results (metrics.filterMap (fun p =>
      let values := p.2
      if values.length < min_periods then none
      else
        let n := values.length
        let xs : List ℚ := (List.range n).map (fun i => (i : ℚ))
        let slope := polyfitSlope values
        let intercept := listMean values - slope * listMean xs
        let ssres : ℚ := ((xs.zip values).map
          (fun q => (q.2 - (slope * q.1 + intercept)) ^ 2)).sum
        let sstot : ℚ := (values.map (fun y => (y - listMean values) ^ 2)).sum
        let r_squared : Option ℚ := if sstot = 0 then none else some (1 - ssres / sstot)
        some (p.1,
          { direction := if slope > 0 then "increasing" else "decreasing"
            strength := |slope|
            significance := r_squared
            concerning := decide (slope > 0) &&
              (match r_squared with
               | some r => decide (r > 7 / 10)
               | none => false) })))

/-- One per-metric record of `detect_seasonal_patterns`
(fairness_utils.py lines 521-525).  `consistency_raw` is
`np.std(diffs) / np.mean(|diffs|)` (a numpy scalar, NaN or inf when the
mean of absolute differences is 0). -/
structure SeasonalEntry where
  seasonal_effect : ℚ
  consistency : NpFloat
  significant : Bool
deriving DecidableEq, Repr

/-- `detect_seasonal_patterns` (fairness_utils.py lines 491-527):
per-metric seasonal differencing at lag `period` for series with at least
two full cycles. -/
def detect_seasonal_patterns (ext : ExternalFns) (trends : TrendsInput)
    (period : ℕ) : StatusOr SeasonalEntry :=
  match trends.historical_metrics with
  | none => .insufficient
  | some metrics =>
    .results (metrics.filterMap (fun p =>
      let values := p.2
      if values.length < period * 2 then none
      else
        let diffs : List ℚ := (List.range (values.length - period)).map
          (fun i => values.getD (i + period) 0 - values.getD i 0)
        let consistency := npDiv
          (npSqrt ext.sqrtApprox (NpFloat.val (listVarPop diffs)))
          (NpFloat.val (listMean (diffs.map (fun d => |d|))))
        some (p.1,
          { seasonal_effect := listMean diffs
            consistency := npDiv (NpFloat.val 1) (npAdd (NpFloat.val 1) consistency)
            significant := npLtQ consistency (1 / 2) })))

/-- One per-metric record of `detect_trend_anomalies`
(fairness_utils.py lines 554-559). -/
structure AnomalyEntry where
  indices : List ℕ
  values : List ℚ
  z_scores : List NpFloat
deriving DecidableEq, Repr

/-- `detect_trend_anomalies` (fairness_utils.py lines 529-561): z-scores
`|(x - mean)/std|` (numpy scalars; a zero standard deviation yields
NaN/inf, not an exception), keeping metrics with at least 3 points and at
least one z-score strictly above the threshold. -/
def detect_trend_anomalies (ext : ExternalFns) (trends : TrendsInput)
    (z_threshold : ℚ) : StatusOr AnomalyEntry :=
  match trends.historical_metrics with
  | none => .insufficient
  | some metrics =>
    .results (metrics.filterMap (fun p =>
      let values := p.2
      if values.length < 3 then none
      else
        let mean := listMean values
        let std := npSqrt ext.sqrtApprox (NpFloat.val (listVarPop values))
        let zs : List NpFloat := values.map
          (fun x => npAbs (npDiv (NpFloat.val (x - mean)) std))
        let idxs := (List.range values.length).filter
          (fun i => npGtQ (zs.getD i NpFloat.nan) z_threshold)
        if idxs.isEmpty then none
        else some (p.1,
          { indices := idxs
            values := idxs.map (fun i => values.getD i 0)
            z_scores := idxs.map (fun i => zs.getD i NpFloat.nan) })))

/-- The `pay_equity` block of the report's `detailed_analysis`
(fairness_utils.py lines 356-368); `none` models the initial empty dict
left in place when no `pay_gap` key is present. -/
structure PayEquityDetail where
  gaps : List (String × GapEntry)
  statistical_significance : Bool
  largest_gap : ℚ
deriving DecidableEq, Repr

/-- One attribute of the report's `bias_metrics` block
(fairness_utils.py lines 376-388). -/
structure BiasDetail where
  demographic_parity : ℚ
  equalized_odds : ℚ
  significant_disparities : List String
deriving DecidableEq, Repr

/-- The report's `trend_analysis` block (fairness_utils.py lines 391-397);
`none` models the initial empty dict left when no `trends` key is
present. -/
structure TrendAnalysisDetail where
  long_term_trends : StatusOr LongTermRec
  seasonal_patterns : StatusOr SeasonalEntry
  anomalies : StatusOr AnomalyEntry
deriving DecidableEq, Repr

/-- The report's `detailed_analysis` dictionary (fairness_utils.py lines
342-347; the `bias_metrics` initial empty dict is the empty list). -/
structure DetailedAnalysis where
  pay_equity : Option PayEquityDetail
  bias_metrics : List (String × BiasDetail)
  trend_analysis : Option TrendAnalysisDetail
deriving DecidableEq, Repr

/-- A recommendation record emitted by `generate_smart_recommendations`
(fairness_utils.py lines 563-628); every field is a fixed string chosen
by the matched rule. -/
structure Recommendation where
  category : String
  priority : String
  title : String
  description : String
  actions : List String
  impact : String
  effort : String
  timeframe : String
deriving DecidableEq, Repr

/-- The pay-equity recommendation (fairness_utils.py lines 575-588). -/
def payEquityRecommendation : Recommendation :=
  { category := "pay_equity"
    priority := "high"
    title := "Address Significant Pay Gaps"
    description := "Significant pay gaps exceeding 5% detected"
    actions := ["Review compensation policies", "Conduct pay adjustment analysis",
                "Develop remediation plan"]
    impact := "high"
    effort := "medium"
    timeframe := "immediate" }

/-- The per-attribute bias recommendation (fairness_utils.py lines
594-607). -/
def biasRecommendation (attr : String) : Recommendation :=
  { category := "bias_mitigation"
    priority := "high"
    title := s!"Address {attr} Bias"
    description := s!"Significant disparities detected in {attr}"
    actions := ["Review decision processes", "Implement bias mitigation strategies",
                "Monitor outcomes closely"]
    impact := "high"
    effort := "high"
    timeframe := "short_term" }

/-- The trend recommendation (fairness_utils.py lines 613-626). -/
def trendRecommendation : Recommendation :=
  { category := "trend_mitigation"
    priority := "medium"
    title := "Address Negative Trends"
    description := "Concerning long-term trends detected"
    actions := ["Analyze root causes", "Develop intervention strategy",
                "Set up monitoring system"]
    impact := "medium"
    effort := "medium"
    timeframe := "medium_term" }

/-- Python truthiness of
`trends.get("long_term_trends", {}).get("concerning", False)`
(fairness_utils.py line 612): the lookup is for a literal key named
`"concerning"` in the long-term-trends dictionary — whose keys are metric
names — so it yields the default `False` unless a metric is literally
named "concerning" (any present record, a non-empty dict, is truthy). -/
def concerningKeyTruthy : StatusOr LongTermRec → Bool
  | .insufficient => false
  | .results l =>
    match l.lookup "concerning" with
    | some _ => true
    | none => false

/-- `generate_smart_recommendations` (fairness_utils.py lines 563-628):
the pay-equity rule fires on `largest_gap > 5` (default 0 when the
`pay_equity` block is the initial empty dict), the bias rule per
attribute with a non-empty `significant_disparities` list, and the trend
rule on the (mis-keyed) `concerning` lookup. -/
def generate_smart_recommendations (analysis : DetailedAnalysis) :
    List Recommendation :=
  (if (match analysis.pay_equity with
       | some e => e.largest_gap
       | none => 0) > 5
   then [payEquityRecommendation] else []) ++
  (analysis.bias_metrics.filterMap (fun p =>
    if p.2.significant_disparities.isEmpty then none
    else some (biasRecommendation p.1))) ++
  (if (match analysis.trend_analysis with
       | some ta => concerningKeyTruthy ta.long_term_trends
       | none => false)
   then [trendRecommendation] else [])

/-- The report's `summary` block (fairness_utils.py lines 336-341); the
timestamp `datetime.now().isoformat()` is an input parameter. -/
structure ReportSummary where
  timestamp : String
  overall_fairness_score : ℚ
  critical_issues : List String
  recommendations : List Recommendation
deriving DecidableEq, Repr

/-- Result record of `generate_fairness_report` (fairness_utils.py lines
325-404); the `visualizations` block holds three `None` constants and is
omitted. -/
structure Report where
  summary : ReportSummary
  detailed_analysis : DetailedAnalysis
deriving DecidableEq, Repr

/-- `generate_fairness_report` (fairness_utils.py lines 325-404): fills
`detailed_analysis` from whichever of `pay_gap`, `bias_metrics`, `trends`
is present, flags a critical issue when the largest (signed) gap exceeds
5, and generates recommendations from the detailed analysis. -/
def generate_fairness_report (now : String) (ext : ExternalFns)
    (inp : AnalysisResults) : Report :=
  let pay_equity : Option PayEquityDetail :=
    match inp.pay_gap with
    | some pg =>
      some { gaps := pg.gaps
             statistical_significance :=
               pg.gaps.any (fun p => p.2.statistical_significance.significant)
             largest_gap := pyMaxD0 (pg.gaps.map (fun p => p.2.gap_percentage)) }
    | none => none
  let bias_details : List (String × BiasDetail) :=
    match inp.bias_metrics with
    | some bm =>
      bm.map (fun p =>
        (p.1, { demographic_parity := p.2.demographic_parity
                equalized_odds := p.2.equalized_odds
                significant_disparities :=
                  (p.2.metric_significance.filter
                    (fun q => q.2.any (fun r => r.2))).map Prod.fst }))
    | none => []
  let trend_analysis : Option TrendAnalysisDetail :=
    match inp.trends with
    | some t =>
      some { long_term_trends := identify_long_term_trends t 4
             seasonal_patterns := detect_seasonal_patterns ext t 12
             anomalies := detect_trend_anomalies ext t 2 }
    | none => none
  let detailed : DetailedAnalysis :=
    { pay_equity := pay_equity
      bias_metrics := bias_details
      trend_analysis := trend_analysis }
  let critical_issues : List String :=
    match pay_equity with
    | some e =>
      if e.largest_gap > 5 then ["Significant pay gaps detected exceeding 5%"] else []
    | none => []
  { summary :=
      { timestamp := now
        overall_fairness_score := calculate_overall_fairness_score inp
        critical_issues := critical_issues
        recommendations := generate_smart_recommendations detailed }
    detailed_analysis := detailed }

/-- Invariant of the statistics-and-reference loop of `compute_pay_gap`:
every recorded group's `count` equals its occurrence count in `groups`
(and is positive), and the current reference, when set, is recorded and
has a count dominating every recorded group. -/
def RefInv (groups : List String) (st : List (String × GroupStats) × Option String) : Prop :=
  (∀ p ∈ st.1, p.2.count = groups.count p.1 ∧ 0 < p.2.count) ∧
  (match st.2 with
   | none => st.1 = []
   | some r => ∃ rs, st.1.lookup r = some rs ∧ ∀ p ∈ st.1, p.2.count ≤ rs.count)

/-- A concrete significance record (used in the witness input below). -/
def sigNaN : SigResult :=
  { t_statistic := NpFloat.nan, p_value := NpFloat.nan, cohens_d := NpFloat.nan,
    effect_size := "negligible", significant := false }

/-- A concrete pay-gap result with a single 10% gap. -/
def pgExample : PayGapResult :=
  { group_stats := []
    gaps := [("B", { gap_percentage := 10, statistical_significance := sigNaN,
                     reference_group := "A" })]
    reference_group := some "A" }

/-- A concrete analysis-results input carrying `pgExample`. -/
def inpExample : AnalysisResults :=
  { pay_gap := some pgExample, bias_metrics := none, trends := none }

/-!
## Helper lemmas
-/

theorem lookup_append_left {α β : Type} [BEq α] {l1 l2 : List (α × β)} {k : α} {v : β}
    (h : l1.lookup k = some v) : (l1 ++ l2).lookup k = some v := by
  induction l1 with
  | nil => simp [List.lookup] at h
  | cons p t ih =>
    rcases p with ⟨a, b⟩
    by_cases hk : k == a
    · simpa [List.lookup, hk] using (by simpa [List.lookup, hk] using h)
    · simp only [List.cons_append, List.lookup] at h ⊢
      simp only [hk] at h ⊢
      exact ih h

theorem lookup_append_right {α β : Type} [BEq α] {l1 : List (α × β)} (l2 : List (α × β))
    {k : α} (h : l1.lookup k = none) : (l1 ++ l2).lookup k = l2.lookup k := by
  induction l1 with
  | nil => simp
  | cons p t ih =>
    rcases p with ⟨a, b⟩
    by_cases hk : k == a
    · simp [List.lookup, hk] at h
    · simp only [List.lookup, hk] at h
      simp only [List.cons_append, List.lookup, hk]
      exact ih h

theorem lookup_mem {α β : Type} [BEq α] [LawfulBEq α] {l : List (α × β)} {k : α} {v : β}
    (h : l.lookup k = some v) : (k, v) ∈ l := by
  induction l with
  | nil => simp [List.lookup] at h
  | cons p t ih =>
    rcases p with ⟨a, b⟩
    by_cases hk : k == a
    · simp only [List.lookup, hk] at h
      cases h
      have : k = a := eq_of_beq hk
      subst this
      exact List.mem_cons_self _ _
    · simp only [List.lookup, hk] at h
      exact List.mem_cons_of_mem _ (ih h)

theorem enumFrom_filter_length (g : String) :
    ∀ (groups : List String) (n : ℕ),
      (((groups.enumFrom n).filter (fun p => p.2 = g)).map Prod.fst).length
        = groups.count g := by
  intro groups
  induction groups with
  | nil => intro n; simp [List.count]
  | cons x xs ih =>
    intro n
    by_cases hx : x = g
    · subst hx
      simp [List.enumFrom, List.filter, List.count_cons, ih]
    · simp only [List.enumFrom, List.filter]
      have : (decide (x = g)) = false := by simpa using hx
      simp only [this]
      simpa [List.count_cons, hx] using ih (n + 1)

theorem group_indices_length (groups : List String) (g : String) :
    (group_indices groups g).length = groups.count g := by
  simpa [group_indices, List.enum] using enumFrom_filter_length g groups 0

theorem group_indices_ne_nil_iff (groups : List String) (g : String) :
    group_indices groups g ≠ [] ↔ g ∈ groups := by
  rw [show (g ∈ groups) = (0 < groups.count g) from (propext List.count_pos_iff).symm,
    ← group_indices_length]
  constructor
  · intro h
    exact List.length_pos.mpr h
  · intro h
    exact List.length_pos.mp h

/-!
## Claim theorems
-/

/-- C1: the spec requires that when the pooled variance of the two groups
is zero (both groups constant and equal), `compute_statistical_significance`
returns `cohens_d = 0` (not NaN) and `significant = false`.  The code has
no such guard: at the failing input (two identical constant groups) the
numpy division `0/0` makes `cohens_d` NaN — not 0 — while `significant` is
indeed false (an IEEE comparison with a NaN p-value). -/
theorem cohens_d_zero_pooled_variance_is_nan :
    (compute_statistical_significance extId [50000, 50000] [50000, 50000]).cohens_d
        = NpFloat.nan ∧
    (compute_statistical_significance extId [50000, 50000] [50000, 50000]).cohens_d
        ≠ NpFloat.val 0 ∧
    (compute_statistical_significance extId [50000, 50000] [50000, 50000]).significant
        = false := by
  refine ⟨?_, ?_, ?_⟩ <;>
    (norm_num [compute_statistical_significance, cohens_d, pooled_sd, ttest_t, ttest_p,
      npMean, npVarPop, npVarSample, npDiv, npMul, npAdd, npSub, npNeg, npAbs, npSqrt,
      stdtrNp, extId, npLtQ]
     try simp)

/-- C8 counterexample: with fairlearn absent, `compute_bias_metrics` does
not return an "unavailable" marker nor omit the branch — it raises
`ImportError`, so no `.ok` result is produced. -/
theorem compute_bias_metrics_unavailable_raises :
    compute_bias_metrics false (fun _ => ()) ⟨[1], [1], []⟩
        = Except.error "ImportError: Fairlearn not installed" ∧
    (compute_bias_metrics false (fun _ => ()) ⟨[1], [1], []⟩).isOk = false := by
  constructor <;> rfl

/-- C8 amended: when the optional heavy dependency is absent, the branch
raises `ImportError` with an installation message (it does not fabricate
numbers): `compute_bias_metrics` raises unconditionally, and
`compute_temporal_trend` raises for every non-empty timestamp list (an
empty one raises `ValueError` from `min` first). -/
theorem missing_dependency_branch_raises {α : Type} (body : BiasInput → α)
    (inp : BiasInput) (values : List ℚ) (timestamps : List ℤ)
    (hts : timestamps ≠ []) :
    compute_bias_metrics false body inp
        = Except.error "ImportError: Fairlearn not installed" ∧
    compute_temporal_trend false values timestamps
        = Except.error "ImportError: scikit-learn is required for temporal trend computation" := by
  constructor
  · rfl
  · cases timestamps with
    | nil => exact absurd rfl hts
    | cons t ts => rfl

/-- Witness for `missing_dependency_branch_raises` at a concrete input. -/
theorem missing_dependency_branch_raises_witness :
    ([(3 : ℤ), 5] ≠ []) ∧
    (compute_bias_metrics false (fun _ => ()) ⟨[1], [1], []⟩
        = Except.error "ImportError: Fairlearn not installed" ∧
     compute_temporal_trend false [10, 20] [(3 : ℤ), 5]
        = Except.error "ImportError: scikit-learn is required for temporal trend computation") :=
  ⟨by simp, missing_dependency_branch_raises (fun _ => ()) ⟨[1], [1], []⟩ [10, 20]
    [(3 : ℤ), 5] (by simp)⟩

/-- C5: the spec requires that a reference group whose median salary is
exactly zero must not crash the pay-gap computation.  The code divides
native Python floats without a guard, so at the failing input
(`salaries=[0,0,100]`, `groups=["A","A","B"]`, reference group "A" with
median 0) `compute_pay_gap` raises `ZeroDivisionError` instead of
returning a fallback gap value. -/
theorem compute_pay_gap_zero_reference_median_crashes :
    compute_pay_gap extId false [0, 0, 100] ["A", "A", "B"] ["A", "B"] none
        = Except.error "ZeroDivisionError: float division by zero" := by
  have hiA : group_indices ["A", "A", "B"] "A" = [0, 1] := by decide
  have hiB : group_indices ["A", "A", "B"] "B" = [2] := by decide
  have hA : _compute_group_statistics extId false [0, 0, 100] [0, 1] none =
      .ok { mean_salary := 0, median_salary := 0, std_salary := NpFloat.val 0,
            count := 2, quartiles := [0, 0, 0], trend := none } := by
    norm_num [_compute_group_statistics, npMedian, npPercentile, sortedAsc, listMean,
      listVarPop, npSqrt, extId, List.insertionSort, List.orderedInsert]
  have hB : _compute_group_statistics extId false [0, 0, 100] [2] none =
      .ok { mean_salary := 100, median_salary := 100, std_salary := NpFloat.val 0,
            count := 1, quartiles := [100, 100, 100], trend := none } := by
    norm_num [_compute_group_statistics, npMedian, npPercentile, sortedAsc, listMean,
      listVarPop, npSqrt, extId, List.insertionSort, List.orderedInsert]
  simp [compute_pay_gap, payGapLoop, _compute_group_gaps, gapsLoop, hiA, hiB, hA, hB,
    List.lookup]

/-- C3: at `salaries=[50000,50000,60000,60000]`, `groups=["A","A","B","B"]`
the claim asserts the non-reference gap is exactly 20 or −20 whichever
tied group the set iteration order makes the reference.  With the valid
iteration order `["B","A"]` the reference is "B" and the gap for "A" is
`(60000-50000)/60000*100 = 50/3 ≈ 16.67`, which is neither 20 nor −20. -/
theorem pay_gap_tied_reference_gap_counterexample :
    validLabelOrder ["A", "A", "B", "B"] ["B", "A"] ∧
    ((compute_pay_gap extId false [50000, 50000, 60000, 60000] ["A", "A", "B", "B"]
        ["B", "A"] none).toOption.map (fun r => r.reference_group))
      = some (some "B") ∧
    ((compute_pay_gap extId false [50000, 50000, 60000, 60000] ["A", "A", "B", "B"]
        ["B", "A"] none).toOption.bind
        (fun r => (r.gaps.lookup "A").map (fun e => e.gap_percentage)))
      = some (50 / 3) ∧
    ¬((50 : ℚ) / 3 = 20 ∨ (50 : ℚ) / 3 = -20) := by
  have hvalid : validLabelOrder ["A", "A", "B", "B"] ["B", "A"] := by decide
  have hiA : group_indices ["A", "A", "B", "B"] "A" = [0, 1] := by decide
  have hiB : group_indices ["A", "A", "B", "B"] "B" = [2, 3] := by decide
  have hA : _compute_group_statistics extId false [50000, 50000, 60000, 60000] [0, 1] none =
      .ok { mean_salary := 50000, median_salary := 50000, std_salary := NpFloat.val 0,
            count := 2, quartiles := [50000, 50000, 50000], trend := none } := by
    norm_num [_compute_group_statistics, npMedian, npPercentile, sortedAsc, listMean,
      listVarPop, npSqrt, extId, List.insertionSort, List.orderedInsert]
  have hB : _compute_group_statistics extId false [50000, 50000, 60000, 60000] [2, 3] none =
      .ok { mean_salary := 60000, median_salary := 60000, std_salary := NpFloat.val 0,
            count := 2, quartiles := [60000, 60000, 60000], trend := none } := by
    norm_num [_compute_group_statistics, npMedian, npPercentile, sortedAsc, listMean,
      listVarPop, npSqrt, extId, List.insertionSort, List.orderedInsert]
  refine ⟨hvalid, ?_, ?_, by norm_num⟩ <;>
    (simp [compute_pay_gap, payGapLoop, _compute_group_gaps, gapsLoop, hiA, hiB, hA, hB,
      List.lookup, Except.toOption]
     try norm_num)

/-- C3 amended: both groups have count 2 and medians 50000 ("A") and
60000 ("B"); under the iteration order making "A" the reference the gap
for "B" is exactly −20, while under the order making "B" the reference
the gap for "A" is exactly 50/3 (≈16.67), not ±20. -/
theorem pay_gap_tied_reference_scenario :
    (((compute_pay_gap extId false [50000, 50000, 60000, 60000] ["A", "A", "B", "B"]
        ["A", "B"] none).toOption.map (fun r => r.reference_group)) = some (some "A") ∧
     ((compute_pay_gap extId false [50000, 50000, 60000, 60000] ["A", "A", "B", "B"]
        ["A", "B"] none).toOption.bind
        (fun r => (r.group_stats.lookup "A").map (fun s => (s.count, s.median_salary))))
       = some (2, 50000) ∧
     ((compute_pay_gap extId false [50000, 50000, 60000, 60000] ["A", "A", "B", "B"]
        ["A", "B"] none).toOption.bind
        (fun r => (r.group_stats.lookup "B").map (fun s => (s.count, s.median_salary))))
       = some (2, 60000) ∧
     ((compute_pay_gap extId false [50000, 50000, 60000, 60000] ["A", "A", "B", "B"]
        ["A", "B"] none).toOption.bind
        (fun r => (r.gaps.lookup "B").map (fun e => e.gap_percentage)))
       = some (-20)) ∧
    (((compute_pay_gap extId false [50000, 50000, 60000, 60000] ["A", "A", "B", "B"]
        ["B", "A"] none).toOption.map (fun r => r.reference_group)) = some (some "B") ∧
     ((compute_pay_gap extId false [50000, 50000, 60000, 60000] ["A", "A", "B", "B"]
        ["B", "A"] none).toOption.bind
        (fun r => (r.gaps.lookup "A").map (fun e => e.gap_percentage)))
       = some (50 / 3)) := by
  have hiA : group_indices ["A", "A", "B", "B"] "A" = [0, 1] := by decide
  have hiB : group_indices ["A", "A", "B", "B"] "B" = [2, 3] := by decide
  have hA : _compute_group_statistics extId false [50000, 50000, 60000, 60000] [0, 1] none =
      .ok { mean_salary := 50000, median_salary := 50000, std_salary := NpFloat.val 0,
            count := 2, quartiles := [50000, 50000, 50000], trend := none } := by
    norm_num [_compute_group_statistics, npMedian, npPercentile, sortedAsc, listMean,
      listVarPop, npSqrt, extId, List.insertionSort, List.orderedInsert]
  have hB : _compute_group_statistics extId false [50000, 50000, 60000, 60000] [2, 3] none =
      .ok { mean_salary := 60000, median_salary := 60000, std_salary := NpFloat.val 0,
            count := 2, quartiles := [60000, 60000, 60000], trend := none } := by
    norm_num [_compute_group_statistics, npMedian, npPercentile, sortedAsc, listMean,
      listVarPop, npSqrt, extId, List.insertionSort, List.orderedInsert]
  refine ⟨⟨?_, ?_, ?_, ?_⟩, ?_, ?_⟩ <;>
    (simp [compute_pay_gap, payGapLoop, _compute_group_gaps, gapsLoop, hiA, hiB, hA, hB,
      List.lookup, Except.toOption]
     try norm_num)


/-- C4: the spec requires a "trend_mitigation" recommendation whenever
`identify_long_term_trends` marks a metric as concerning (slope > 0 and
R-squared > 0.7).  At the failing input (`historical_metrics` containing
the series `gap = [1,2,3,4]`, a perfect worsening line with slope 1 and
R-squared 1) the metric is marked concerning, yet the report pipeline
emits no recommendation at all: `generate_smart_recommendations` looks up
a literal key `"concerning"` in the long-term-trends dictionary — whose
keys are metric names — so the rule can never fire. -/
theorem concerning_trend_produces_no_trend_mitigation :
    (match identify_long_term_trends
        { historical_metrics := some [("gap", [1, 2, 3, 4])],
          increasing_disparity := none } 4 with
     | .results l => (l.lookup "gap").map (fun r => r.concerning)
     | .insufficient => none) = some true ∧
    (generate_fairness_report "" extId
        { pay_gap := none, bias_metrics := none,
          trends := some { historical_metrics := some [("gap", [1, 2, 3, 4])],
                           increasing_disparity := none } }).summary.recommendations
      = [] := by
  have hr : List.range 4 = [0, 1, 2, 3] := by decide
  have h1 : identify_long_term_trends
      { historical_metrics := some [("gap", [1, 2, 3, 4])],
        increasing_disparity := none } 4 =
      .results [("gap", { direction := "increasing", strength := 1,
                          significance := some 1, concerning := true })] := by
    simp only [identify_long_term_trends, List.filterMap_cons, List.filterMap_nil]
    norm_num [polyfitSlope, listMean, hr]
  have h2 : detect_seasonal_patterns extId
      { historical_metrics := some [("gap", [1, 2, 3, 4])],
        increasing_disparity := none } 12 = .results [] := by
    norm_num [detect_seasonal_patterns]
  have h3 : detect_trend_anomalies extId
      { historical_metrics := some [("gap", [1, 2, 3, 4])],
        increasing_disparity := none } 2 = .results [] := by
    simp only [detect_trend_anomalies, List.filterMap_cons, List.filterMap_nil]
    norm_num [listMean, listVarPop, npSqrt, npDiv, npAbs, npGtQ, extId, hr]
    norm_num [abs_le]
  refine ⟨by simp [h1, List.lookup], ?_⟩
  simp [generate_fairness_report, generate_smart_recommendations, concerningKeyTruthy,
    h1, h2, h3, List.lookup]

/-- In a single-label observation list, the only valid iteration order of
`set(groups)` is the singleton of that label. -/
theorem validLabelOrder_singleton {groups order : List String} {a : String}
    (hvalid : validLabelOrder groups order) (hne : groups ≠ [])
    (hall : ∀ g ∈ groups, g = a) : order = [a] := by
  obtain ⟨hnodup, hsub, hsup⟩ := hvalid
  have ha : a ∈ order := by
    cases groups with
    | nil => exact absurd rfl hne
    | cons b bs =>
      have hb : b = a := hall b (List.mem_cons_self b bs)
      exact hsup a (hb ▸ List.mem_cons_self b bs)
  have hall2 : ∀ g ∈ order, g = a := fun g hg => hall g (hsub g hg)
  cases order with
  | nil => simp at ha
  | cons x xs =>
    have hx : x = a := hall2 x (List.mem_cons_self x xs)
    subst hx
    cases xs with
    | nil => rfl
    | cons y ys =>
      have hy : y = x := hall2 y (by simp)
      rw [List.nodup_cons] at hnodup
      exact absurd (hy ▸ List.mem_cons_self y ys) hnodup.1

/-- C7: for every input to `compute_pay_gap` with exactly one distinct
group label — any salaries, any timestamps, any dependency availability —
whenever the call returns, the returned `gaps` mapping is empty and
`reference_group` is that sole label: with a single group the
`len(data) >= 2` guard fails, so no gaps are computed.  (A timestamped
single-group input can also raise inside the trend branch; then no
mapping is returned at all.) -/
theorem compute_pay_gap_single_group (ext : ExternalFns) (avail : Bool)
    (salaries : List ℚ) (groups order : List String) (a : String)
    (ts : Option (List ℤ)) (r : PayGapResult)
    (hvalid : validLabelOrder groups order) (hne : groups ≠ [])
    (hall : ∀ g ∈ groups, g = a)
    (hok : compute_pay_gap ext avail salaries groups order ts = .ok r) :
    r.gaps = [] ∧ r.reference_group = some a := by
  have horder : order = [a] := validLabelOrder_singleton hvalid hne hall
  subst horder
  have hmem : a ∈ groups := by
    cases groups with
    | nil => exact absurd rfl hne
    | cons b bs => exact (hall b (List.mem_cons_self b bs)) ▸ List.mem_cons_self b bs
  have hidx : (group_indices groups a).isEmpty = false := by
    rw [List.isEmpty_eq_false]
    exact (group_indices_ne_nil_iff groups a).mpr hmem
  cases hst : _compute_group_statistics ext avail salaries (group_indices groups a) ts with
  | error e =>
    exfalso
    revert hok
    simp [compute_pay_gap, payGapLoop, hidx, hst]
  | ok st =>
    revert hok
    simp only [compute_pay_gap, payGapLoop, hidx, hst, Bool.false_eq_true, if_false,
      List.nil_append, List.length_singleton, ge_iff_le, Except.ok.injEq]
    intro hok
    have h2 : ¬(a ≠ "" ∧ 2 ≤ 1) := by
      rintro ⟨-, hle⟩
      omega
    rw [if_neg h2] at hok
    simp only [Except.ok.injEq] at hok
    rw [← hok]
    exact ⟨rfl, rfl⟩

/-- Witness for `compute_pay_gap_single_group` at a concrete input with
timestamps present and scikit-learn available. -/
theorem compute_pay_gap_single_group_witness :
    (validLabelOrder ["X", "X"] ["X"] ∧ (["X", "X"] : List String) ≠ [] ∧
      (∀ g ∈ (["X", "X"] : List String), g = "X")) ∧
    (∃ r, compute_pay_gap extId true [1, 2] ["X", "X"] ["X"] (some [5, 9]) = .ok r ∧
      r.gaps = [] ∧ r.reference_group = some "X") := by
  refine ⟨⟨by decide, by decide, by decide⟩, ?_⟩
  cases hok : compute_pay_gap extId true [1, 2] ["X", "X"] ["X"] (some [5, 9]) with
  | error e =>
    exfalso
    revert hok
    have hiX : group_indices ["X", "X"] "X" = [0, 1] := by decide
    simp [compute_pay_gap, payGapLoop, _compute_group_statistics, compute_temporal_trend,
      hiX, listMean]
  | ok r =>
    exact ⟨r, rfl, compute_pay_gap_single_group extId true [1, 2] ["X", "X"] ["X"] "X"
      (some [5, 9]) r (by decide) (by decide) (by decide) hok⟩

/-- The `count` field produced by `_compute_group_statistics` is the
length of the index list, in every timestamp branch. -/
theorem _compute_group_statistics_count (ext : ExternalFns) (avail : Bool)
    (salaries : List ℚ) (indices : List ℕ) (ts : Option (List ℤ)) (st : GroupStats)
    (h : _compute_group_statistics ext avail salaries indices ts = .ok st) :
    st.count = indices.length := by
  unfold _compute_group_statistics at h
  cases ts with
  | none =>
    simp only [Except.ok.injEq] at h
    rw [← h]
    simp
  | some l =>
    by_cases hl : l.isEmpty
    · simp only [hl, if_true, Except.ok.injEq] at h
      rw [← h]
      simp
    · simp only [hl, if_false, Bool.false_eq_true] at h
      cases hct : compute_temporal_trend avail
          (indices.map (fun i => salaries.getD i 0)) (indices.map (fun i => l.getD i 0)) with
      | error e => rw [hct] at h; simp at h
      | ok tr =>
        rw [hct] at h
        simp only [Except.ok.injEq] at h
        rw [← h]
        simp

/-- The statistics loop preserves `RefInv`, only grows the data mapping,
and records every label of the iteration order that occurs in `groups`. -/
theorem payGapLoop_spec (ext : ExternalFns) (avail : Bool) (salaries : List ℚ)
    (groups : List String) (ts : Option (List ℤ)) :
    ∀ (order : List String) (acc st : List (String × GroupStats) × Option String),
      payGapLoop ext avail salaries groups ts order acc = .ok st →
      RefInv groups acc →
      RefInv groups st ∧ (∀ p ∈ acc.1, p ∈ st.1) ∧
        (∀ g ∈ order, group_indices groups g ≠ [] → g ∈ st.1.map Prod.fst) := by
  intro order
  induction order with
  | nil =>
    intro acc st h hinv
    simp only [payGapLoop, Except.ok.injEq] at h
    subst h
    exact ⟨hinv, fun p hp => hp, by simp⟩
  | cons g rest ih =>
    intro acc st h hinv
    rw [payGapLoop] at h
    by_cases hidx : (group_indices groups g).isEmpty
    · simp only [hidx, if_true] at h
      obtain ⟨hinv2, hsub, hcov⟩ := ih acc st h hinv
      refine ⟨hinv2, hsub, ?_⟩
      intro x hx hne
      rcases List.mem_cons.mp hx with hxg | hxr
      · exact absurd (List.isEmpty_iff.mp (hxg ▸ hidx)) hne
      · exact hcov x hxr hne
    · simp only [hidx, if_false, Bool.false_eq_true] at h
      cases hst : _compute_group_statistics ext avail salaries (group_indices groups g) ts with
      | error e => rw [hst] at h; simp at h
      | ok stats =>
        rw [hst] at h
        have hgmem : g ∈ groups :=
          (group_indices_ne_nil_iff groups g).mp (by simpa [List.isEmpty_iff] using hidx)
        have hcount : stats.count = groups.count g := by
          rw [_compute_group_statistics_count ext avail salaries _ ts stats hst,
            group_indices_length]
        have hcpos : 0 < stats.count := by
          rw [hcount]
          exact List.count_pos_iff.mpr hgmem
        cases hacc : acc.2 with
        | none =>
          rw [hacc] at h
          dsimp only at h
          have hnil : acc.1 = [] := by
            have h2 := hinv.2
            rw [hacc] at h2
            exact h2
          have hnew : RefInv groups (acc.1 ++ [(g, stats)], some g) := by
            constructor
            · intro p hp
              rw [hnil] at hp
              simp only [List.nil_append, List.mem_singleton] at hp
              subst hp
              exact ⟨hcount, hcpos⟩
            · refine ⟨stats, ?_, ?_⟩
              · rw [hnil]
                simp [List.lookup]
              · intro p hp
                rw [hnil] at hp
                simp only [List.nil_append, List.mem_singleton] at hp
                subst hp
                exact le_refl _
          obtain ⟨hinv2, hsub, hcov⟩ := ih _ st h hnew
          refine ⟨hinv2, ?_, ?_⟩
          · intro p hp
            rw [hnil] at hp
            simp at hp
          · intro x hx hne
            rcases List.mem_cons.mp hx with hxg | hxr
            · subst hxg
              have hmm : (x, stats) ∈ st.1 := hsub (x, stats) (by simp)
              exact List.mem_map.mpr ⟨(x, stats), hmm, rfl⟩
            · exact hcov x hxr hne
        | some r =>
          rw [hacc] at h
          dsimp only at h
          have h2 := hinv.2
          rw [hacc] at h2
          obtain ⟨rs, hlook, hbound⟩ := h2
          rw [hlook] at h
          dsimp only at h
          have hnew : RefInv groups
              (acc.1 ++ [(g, stats)], if stats.count > rs.count then some g else some r) := by
            constructor
            · intro p hp
              rcases List.mem_append.mp hp with hpa | hpn
              · exact hinv.1 p hpa
              · simp only [List.mem_singleton] at hpn
                subst hpn
                exact ⟨hcount, hcpos⟩
            · by_cases hgt : stats.count > rs.count
              · simp only [hgt, if_true]
                cases hg : acc.1.lookup g with
                | none =>
                  refine ⟨stats, ?_, ?_⟩
                  · rw [lookup_append_right _ hg]
                    simp [List.lookup]
                  · intro p hp
                    rcases List.mem_append.mp hp with hpa | hpn
                    · exact le_of_lt (lt_of_le_of_lt (hbound p hpa) hgt)
                    · simp only [List.mem_singleton] at hpn
                      subst hpn
                      exact le_refl _
                | some old =>
                  refine ⟨old, lookup_append_left hg, ?_⟩
                  have hold : old.count = stats.count := by
                    have hmem := lookup_mem hg
                    rw [(hinv.1 _ hmem).1, hcount]
                  intro p hp
                  rcases List.mem_append.mp hp with hpa | hpn
                  · rw [hold]
                    exact le_of_lt (lt_of_le_of_lt (hbound p hpa) hgt)
                  · simp only [List.mem_singleton] at hpn
                    subst hpn
                    rw [hold]
              · simp only [hgt, if_false]
                refine ⟨rs, lookup_append_left hlook, ?_⟩
                intro p hp
                rcases List.mem_append.mp hp with hpa | hpn
                · exact hbound p hpa
                · simp only [List.mem_singleton] at hpn
                  subst hpn
                  exact le_of_not_lt hgt
          obtain ⟨hinv2, hsub, hcov⟩ := ih _ st h hnew
          refine ⟨hinv2, ?_, ?_⟩
          · intro p hp
            exact hsub p (List.mem_append.mpr (Or.inl hp))
          · intro x hx hne
            rcases List.mem_cons.mp hx with hxg | hxr
            · subst hxg
              have hmm : (x, stats) ∈ st.1 := hsub (x, stats) (by simp)
              exact List.mem_map.mpr ⟨(x, stats), hmm, rfl⟩
            · exact hcov x hxr hne

/-- C2: for every non-empty input and every valid `set(groups)` iteration
order, when `compute_pay_gap` returns, the group selected as
`reference_group` has an observation count equal to the maximum count
over all groups present in the input. -/
theorem compute_pay_gap_reference_has_max_count (ext : ExternalFns) (avail : Bool)
    (salaries : List ℚ) (groups order : List String) (ts : Option (List ℤ))
    (r : PayGapResult)
    (hvalid : validLabelOrder groups order) (hne : groups ≠ [])
    (hok : compute_pay_gap ext avail salaries groups order ts = .ok r) :
    ∃ g, r.reference_group = some g ∧ g ∈ groups ∧
      ∀ l ∈ groups, groups.count l ≤ groups.count g := by
  unfold compute_pay_gap at hok
  cases hloop : payGapLoop ext avail salaries groups ts order ([], none) with
  | error e => rw [hloop] at hok; simp at hok
  | ok st =>
    rw [hloop] at hok
    dsimp only at hok
    obtain ⟨d, ref⟩ := st
    obtain ⟨hinv, hsub, hcov⟩ := payGapLoop_spec ext avail salaries groups ts order
      ([], none) (d, ref) hloop ⟨by simp, by simp⟩
    cases ref with
    | none =>
      exfalso
      have hd : d = [] := hinv.2
      cases groups with
      | nil => exact hne rfl
      | cons b bs =>
        have hb : b ∈ b :: bs := List.mem_cons_self b bs
        have hmm : b ∈ d.map Prod.fst :=
          hcov b (hvalid.2.2 b hb) ((group_indices_ne_nil_iff _ b).mpr hb)
        rw [hd] at hmm
        simp at hmm
    | some gfin =>
      have hrref : r.reference_group = some gfin := by
        dsimp only at hok
        by_cases hcond : gfin ≠ "" ∧ d.length ≥ 2
        · rw [if_pos hcond] at hok
          cases hgaps : _compute_group_gaps ext d salaries groups gfin order with
          | error e => rw [hgaps] at hok; simp at hok
          | ok gps =>
            rw [hgaps] at hok
            dsimp only at hok
            simp only [Except.ok.injEq] at hok
            rw [← hok]
        · rw [if_neg hcond] at hok
          simp only [Except.ok.injEq] at hok
          rw [← hok]
      obtain ⟨rs, hlook, hbound⟩ := hinv.2
      have hmemd := lookup_mem hlook
      have hcnt := hinv.1 _ hmemd
      refine ⟨gfin, hrref, List.count_pos_iff.mp (hcnt.1 ▸ hcnt.2), ?_⟩
      intro l hl
      have hlmem : l ∈ d.map Prod.fst :=
        hcov l (hvalid.2.2 l hl) ((group_indices_ne_nil_iff groups l).mpr hl)
      obtain ⟨p, hp, hpl⟩ := List.mem_map.mp hlmem
      have hple := hbound p hp
      have hpc := (hinv.1 p hp).1
      calc groups.count l = p.2.count := by rw [hpc, hpl]
        _ ≤ rs.count := hple
        _ = groups.count gfin := hcnt.1

/-- Witness for `compute_pay_gap_reference_has_max_count` at a concrete
input. -/
theorem compute_pay_gap_reference_has_max_count_witness :
    (validLabelOrder ["X", "X"] ["X"] ∧ (["X", "X"] : List String) ≠ []) ∧
    (∃ r, compute_pay_gap extId false [1, 2] ["X", "X"] ["X"] none = .ok r ∧
      ∃ g, r.reference_group = some g ∧ g ∈ (["X", "X"] : List String) ∧
        ∀ l ∈ (["X", "X"] : List String),
          (["X", "X"] : List String).count l ≤ (["X", "X"] : List String).count g) := by
  refine ⟨⟨by decide, by decide⟩, ?_⟩
  cases hok : compute_pay_gap extId false [1, 2] ["X", "X"] ["X"] none with
  | error e =>
    exfalso
    revert hok
    simp [compute_pay_gap, payGapLoop, _compute_group_statistics,
      show (group_indices ["X", "X"] "X").isEmpty = false from by decide]
  | ok r =>
    exact ⟨r, rfl, compute_pay_gap_reference_has_max_count extId false [1, 2]
      ["X", "X"] ["X"] none r (by decide) (by decide) hok⟩

/-- A left fold by `max` dominates its initial value. -/
theorem le_foldl_max : ∀ (xs : List ℚ) (x : ℚ), x ≤ xs.foldl max x := by
  intro xs
  induction xs with
  | nil => intro x; simp
  | cons y ys ih =>
    intro x
    calc x ≤ max x y := le_max_left x y
      _ ≤ ys.foldl max (max x y) := ih (max x y)

/-- `max(iterable, default=0)` over non-negative values is non-negative. -/
theorem pyMaxD0_nonneg {l : List ℚ} (h : ∀ x ∈ l, 0 ≤ x) : 0 ≤ pyMaxD0 l := by
  cases l with
  | nil => simp [pyMaxD0]
  | cons x xs =>
    calc (0 : ℚ) ≤ x := h x (List.mem_cons_self x xs)
      _ ≤ xs.foldl max x := le_foldl_max xs x

/-- The mean of a non-empty list of values in [0,1] lies in [0,1]. -/
theorem listMean_bounds {l : List ℚ} (h : ∀ x ∈ l, 0 ≤ x ∧ x ≤ 1) (hne : l ≠ []) :
    0 ≤ listMean l ∧ listMean l ≤ 1 := by
  have hlen : 0 < (l.length : ℚ) := by
    exact_mod_cast List.length_pos.mpr hne
  constructor
  · exact div_nonneg (List.sum_nonneg (fun x hx => (h x hx).1)) (le_of_lt hlen)
  · rw [listMean, div_le_one hlen]
    calc l.sum ≤ l.length • (1 : ℚ) := List.sum_le_card_nsmul l 1 (fun x hx => (h x hx).2)
      _ = (l.length : ℚ) := by simp

/-- Every component weight of the fairness score is positive. -/
theorem fairnessWeight_pos (s : String) : 0 < fairnessWeight s := by
  unfold fairnessWeight
  split_ifs <;> norm_num

/-- A weighted average with positive weights of scores in [0,1] lies in
[0,1]. -/
theorem weighted_avg_bounds (comps : List (String × ℚ))
    (hs : ∀ p ∈ comps, 0 ≤ p.2 ∧ p.2 ≤ 1) (hne : comps ≠ []) :
    0 ≤ ((comps.map (fun p => fairnessWeight p.1 * p.2)).sum) /
        ((comps.map (fun p => fairnessWeight p.1)).sum) ∧
      ((comps.map (fun p => fairnessWeight p.1 * p.2)).sum) /
        ((comps.map (fun p => fairnessWeight p.1)).sum) ≤ 1 := by
  have hden : 0 < (comps.map (fun p => fairnessWeight p.1)).sum := by
    apply List.sum_pos
    · intro x hx
      obtain ⟨p, hp, rfl⟩ := List.mem_map.mp hx
      exact fairnessWeight_pos p.1
    · simpa using hne
  constructor
  · apply div_nonneg _ (le_of_lt hden)
    apply List.sum_nonneg
    intro x hx
    obtain ⟨p, hp, rfl⟩ := List.mem_map.mp hx
    exact mul_nonneg (le_of_lt (fairnessWeight_pos p.1)) (hs p hp).1
  · rw [div_le_one hden]
    apply List.sum_le_sum
    intro p hp
    calc fairnessWeight p.1 * p.2 ≤ fairnessWeight p.1 * 1 :=
          mul_le_mul_of_nonneg_left (hs p hp).2 (le_of_lt (fairnessWeight_pos p.1))
      _ = fairnessWeight p.1 := mul_one _

/-- Every component score is in [0,1], provided the bias metric values
have absolute value at most 1 (as fairlearn rate differences do). -/
theorem score_components_bounds (inp : AnalysisResults)
    (hbias : ∀ p ∈ inp.bias_metrics.getD [],
      |p.2.demographic_parity| ≤ 1 ∧ |p.2.equalized_odds| ≤ 1) :
    ∀ p ∈ score_components inp, 0 ≤ p.2 ∧ p.2 ≤ 1 := by
  intro p hp
  unfold score_components at hp
  rcases List.mem_append.mp hp with hp1 | hptrend
  rcases List.mem_append.mp hp1 with hppay | hpbias
  · cases hpg : inp.pay_gap with
    | none => rw [hpg] at hppay; simp at hppay
    | some pg =>
      rw [hpg] at hppay
      simp only [List.mem_singleton] at hppay
      subst hppay
      refine ⟨le_max_left 0 _, max_le (by norm_num) ?_⟩
      have hm : 0 ≤ pyMaxD0 (pg.gaps.map (fun q => |q.2.gap_percentage|)) := by
        apply pyMaxD0_nonneg
        intro x hx
        obtain ⟨q, hq, rfl⟩ := List.mem_map.mp hx
        exact abs_nonneg _
      have : 0 ≤ pyMaxD0 (pg.gaps.map (fun q => |q.2.gap_percentage|)) / 20 := by positivity
      linarith
  · cases hbm : inp.bias_metrics with
    | none => rw [hbm] at hpbias; simp at hpbias
    | some bm =>
      rw [hbm] at hpbias
      by_cases hbe : (bm.flatMap
          (fun q => [1 - |q.2.demographic_parity|, 1 - |q.2.equalized_odds|])).isEmpty
      · simp only [hbe, if_true] at hpbias
        simp at hpbias
      · simp only [hbe, if_false, Bool.false_eq_true, List.mem_singleton] at hpbias
        subst hpbias
        apply listMean_bounds
        · intro x hx
          obtain ⟨q, hq, hxq⟩ := List.mem_flatMap.mp hx
          have hb := hbias q (by rw [hbm]; simpa using hq)
          simp only [List.mem_cons, List.not_mem_nil, or_false] at hxq
          rcases hxq with h1 | h1
          · rw [h1]
            constructor
            · linarith [hb.1]
            · linarith [abs_nonneg q.2.demographic_parity]
          · rw [h1]
            constructor
            · linarith [hb.2]
            · linarith [abs_nonneg q.2.equalized_odds]
        · simpa [List.isEmpty_iff] using hbe
  · cases ht : inp.trends with
    | none => rw [ht] at hptrend; simp at hptrend
    | some t =>
      rw [ht] at hptrend
      dsimp only at hptrend
      cases hd : t.increasing_disparity with
      | none => rw [hd] at hptrend; simp at hptrend
      | some b =>
        rw [hd] at hptrend
        simp only [List.mem_singleton] at hptrend
        subst hptrend
        cases b <;> norm_num

/-- C6 amended: `calculate_overall_fairness_score` lies in [0,1] for every
input whose bias metrics (if any) satisfy `|demographic_parity| ≤ 1` and
`|equalized_odds| ≤ 1`, and is exactly 0 when none of the recognized
sub-components is present.  (Without the bias bound the score can leave
the interval; see the counterexample.) -/
theorem fairness_score_in_unit_interval (inp : AnalysisResults)
    (hbias : ∀ p ∈ inp.bias_metrics.getD [],
      |p.2.demographic_parity| ≤ 1 ∧ |p.2.equalized_odds| ≤ 1) :
    (0 ≤ calculate_overall_fairness_score inp ∧ calculate_overall_fairness_score inp ≤ 1) ∧
    (inp.pay_gap = none → inp.bias_metrics = none → inp.trends = none →
      calculate_overall_fairness_score inp = 0) := by
  constructor
  · unfold calculate_overall_fairness_score
    by_cases hc : (score_components inp).isEmpty
    · simp [hc]
    · simp only [hc, if_false, Bool.false_eq_true]
      exact weighted_avg_bounds _ (score_components_bounds inp hbias)
        (by simpa [List.isEmpty_iff] using hc)
  · intro h1 h2 h3
    unfold calculate_overall_fairness_score score_components
    rw [h1, h2, h3]
    simp

/-- Witness for `fairness_score_in_unit_interval` at a concrete input. -/
theorem fairness_score_in_unit_interval_witness :
    (∀ p ∈ (({ pay_gap := some { group_stats := [], gaps := [], reference_group := none },
               bias_metrics := none, trends := none } : AnalysisResults)).bias_metrics.getD [],
      |p.2.demographic_parity| ≤ 1 ∧ |p.2.equalized_odds| ≤ 1) ∧
    (0 ≤ calculate_overall_fairness_score
        { pay_gap := some { group_stats := [], gaps := [], reference_group := none },
          bias_metrics := none, trends := none } ∧
      calculate_overall_fairness_score
        { pay_gap := some { group_stats := [], gaps := [], reference_group := none },
          bias_metrics := none, trends := none } ≤ 1) :=
  ⟨by simp, (fairness_score_in_unit_interval
      { pay_gap := some { group_stats := [], gaps := [], reference_group := none },
        bias_metrics := none, trends := none } (by simp)).1⟩

/-- C6 counterexample: with a (dictionary) input whose bias metrics carry
`demographic_parity = equalized_odds = 3`, the returned score is −2,
outside [0,1]: the function never clamps the bias sub-score. -/
theorem fairness_score_unbounded_counterexample :
    calculate_overall_fairness_score
      { pay_gap := none,
        bias_metrics := some [("gender", { demographic_parity := 3, equalized_odds := 3,
                                           metric_significance := [] })],
        trends := none } = -2 ∧
    ¬(0 ≤ calculate_overall_fairness_score
      { pay_gap := none,
        bias_metrics := some [("gender", { demographic_parity := 3, equalized_odds := 3,
                                           metric_significance := [] })],
        trends := none }) := by
  have h : calculate_overall_fairness_score
      { pay_gap := none,
        bias_metrics := some [("gender", { demographic_parity := 3, equalized_odds := 3,
                                           metric_significance := [] })],
        trends := none } = -2 := by
    simp only [calculate_overall_fairness_score, score_components, listMean, fairnessWeight]
    norm_num [abs_of_pos]
    simp only [show ("bias_metrics" = "pay_gap") = False from by simp, if_false]
    norm_num
  refine ⟨h, by rw [h]; norm_num⟩

/-- Membership in a conditionally-singleton list forces equality. -/
theorem mem_ite_singleton {α : Type} {c : Prop} [Decidable c] {x rec : α}
    (h : rec ∈ if c then [x] else []) : rec = x := by
  by_cases hc : c
  · simpa [hc] using h
  · simp [hc] at h

/-- Every recommendation produced by the bias rule carries the category
"bias_mitigation". -/
theorem mem_bias_recs_category {l : List (String × BiasDetail)} {rec : Recommendation}
    (h : rec ∈ l.filterMap (fun p =>
      if p.2.significant_disparities.isEmpty then none
      else some (biasRecommendation p.1))) :
    rec.category = "bias_mitigation" := by
  obtain ⟨p, hp, hf⟩ := List.mem_filterMap.mp h
  by_cases hc : p.2.significant_disparities.isEmpty
  · simp [hc] at hf
  · simp only [hc, if_false, Bool.false_eq_true, Option.some.injEq] at hf
    rw [← hf]
    rfl

/-- C9: for a report generated from an analysis result containing a
`pay_gap` key, the recommendation list contains a recommendation with
category "pay_equity" and priority "high" exactly when the largest
(signed) gap percentage in the result exceeds 5. -/
theorem report_pay_equity_recommendation_iff (now : String) (ext : ExternalFns)
    (inp : AnalysisResults) (pg : PayGapResult) (hpg : inp.pay_gap = some pg) :
    (∃ rec ∈ (generate_fairness_report now ext inp).summary.recommendations,
        rec.category = "pay_equity" ∧ rec.priority = "high") ↔
      pyMaxD0 (pg.gaps.map (fun p => p.2.gap_percentage)) > 5 := by
  unfold generate_fairness_report
  rw [hpg]
  dsimp only
  unfold generate_smart_recommendations
  dsimp only
  by_cases hL : pyMaxD0 (pg.gaps.map (fun p => p.2.gap_percentage)) > 5
  · rw [if_pos hL]
    constructor
    · intro _; exact hL
    · intro _
      exact ⟨payEquityRecommendation, by simp, rfl, rfl⟩
  · rw [if_neg hL]
    constructor
    · rintro ⟨rec, hmem, hcat, hprio⟩
      exfalso
      rw [List.nil_append] at hmem
      rcases List.mem_append.mp hmem with hb | ht
      · have hbc := mem_bias_recs_category hb
        rw [hcat] at hbc
        simp at hbc
      · have htc := mem_ite_singleton ht
        rw [htc] at hcat
        simp [trendRecommendation] at hcat
    · intro h; exact absurd h hL

/-- numpy addition is commutative. -/
theorem npAdd_comm (a b : NpFloat) : npAdd a b = npAdd b a := by
  cases a <;> cases b <;> simp [npAdd, Rat.add_comm]

/-- Swapping the operands of numpy subtraction negates the result, NaN
and infinity cases included. -/
theorem npSub_antisymm (a b : NpFloat) : npSub b a = npNeg (npSub a b) := by
  cases a <;> cases b <;> simp [npSub, npAdd, npNeg]

/-- Negating the numerator of a numpy division negates the quotient, NaN,
infinity and division-by-zero cases included. -/
theorem npDiv_neg_num (a d : NpFloat) : npDiv (npNeg a) d = npNeg (npDiv a d) := by
  cases a with
  | nan => cases d <;> rfl
  | posInf =>
    cases d with
    | nan => rfl
    | posInf => rfl
    | negInf => rfl
    | val b => simp only [npNeg, npDiv]; split_ifs <;> rfl
  | negInf =>
    cases d with
    | nan => rfl
    | posInf => rfl
    | negInf => rfl
    | val b => simp only [npNeg, npDiv]; split_ifs <;> rfl
  | val q =>
    cases d with
    | nan => rfl
    | posInf => simp [npNeg, npDiv]
    | negInf => simp [npNeg, npDiv]
    | val b =>
      by_cases hb : b = 0
      · by_cases hq : q = 0
        · simp [npNeg, npDiv, hb, hq]
        · rcases lt_trichotomy 0 q with h | h | h
          · have hnq : ¬(0 < -q) := by linarith
            simp [npNeg, npDiv, hb, hq, h, hnq]
          · exact absurd h.symm hq
          · have hnq : 0 < -q := by linarith
            have hql : ¬(0 < q) := by linarith
            simp [npNeg, npDiv, hb, hq, hnq, hql]
      · simp [npNeg, npDiv, hb, neg_div]

/-- numpy absolute value is invariant under negation. -/
theorem npAbs_npNeg (a : NpFloat) : npAbs (npNeg a) = npAbs a := by
  cases a <;> simp [npAbs, npNeg, abs_neg]

/-- The pooled standard deviation of Cohen's d is symmetric in the two
groups. -/
theorem pooled_sd_swap (ext : ExternalFns) (g1 g2 : List ℚ) :
    pooled_sd ext g2 g1 = pooled_sd ext g1 g2 := by
  unfold pooled_sd
  dsimp only
  have hdf : (g2.length : ℚ) + (g1.length : ℚ) - 2 = (g1.length : ℚ) + (g2.length : ℚ) - 2 := by
    ring
  rw [hdf]
  conv_lhs => rw [npAdd_comm]

/-- Swapping the two groups negates the t statistic. -/
theorem ttest_t_swap (ext : ExternalFns) (g1 g2 : List ℚ) :
    ttest_t ext g2 g1 = npNeg (ttest_t ext g1 g2) := by
  unfold ttest_t
  dsimp only
  have hdf : (g2.length : ℚ) + (g1.length : ℚ) - 2 = (g1.length : ℚ) + (g2.length : ℚ) - 2 := by
    ring
  have hrec : (1 : ℚ) / (g2.length : ℚ) + 1 / (g1.length : ℚ)
      = 1 / (g1.length : ℚ) + 1 / (g2.length : ℚ) := by ring
  rw [hdf, hrec]
  conv_lhs => rw [npAdd_comm]
  rw [npSub_antisymm, npDiv_neg_num]

/-- The two-sided p-value is invariant under swapping the groups. -/
theorem ttest_p_swap (ext : ExternalFns) (g1 g2 : List ℚ) :
    ttest_p ext g2 g1 = ttest_p ext g1 g2 := by
  unfold ttest_p
  dsimp only
  have hdf : (g2.length : ℚ) + (g1.length : ℚ) - 2 = (g1.length : ℚ) + (g2.length : ℚ) - 2 := by
    ring
  rw [hdf, ttest_t_swap, npAbs_npNeg]

/-- Swapping the two groups negates Cohen's d. -/
theorem cohens_d_swap (ext : ExternalFns) (g1 g2 : List ℚ) :
    cohens_d ext g2 g1 = npNeg (cohens_d ext g1 g2) := by
  unfold cohens_d
  rw [pooled_sd_swap, npSub_antisymm, npDiv_neg_num]

/-- C10: swapping the two arguments of `compute_statistical_significance`
negates `t_statistic` and `cohens_d` and leaves `p_value`, `effect_size`
and `significant` unchanged (stated, as the claim does, for groups of at
least two elements with nonzero pooled standard deviation; the proof
shows the symmetry is unconditional). -/
theorem compute_statistical_significance_swap (ext : ExternalFns) (g1 g2 : List ℚ)
    (_h1 : 2 ≤ g1.length) (_h2 : 2 ≤ g2.length)
    (_hsd : pooled_sd ext g1 g2 ≠ NpFloat.val 0) :
    (compute_statistical_significance ext g2 g1).t_statistic
        = npNeg (compute_statistical_significance ext g1 g2).t_statistic ∧
    (compute_statistical_significance ext g2 g1).cohens_d
        = npNeg (compute_statistical_significance ext g1 g2).cohens_d ∧
    (compute_statistical_significance ext g2 g1).p_value
        = (compute_statistical_significance ext g1 g2).p_value ∧
    (compute_statistical_significance ext g2 g1).effect_size
        = (compute_statistical_significance ext g1 g2).effect_size ∧
    (compute_statistical_significance ext g2 g1).significant
        = (compute_statistical_significance ext g1 g2).significant := by
  unfold compute_statistical_significance
  refine ⟨ttest_t_swap ext g1 g2, cohens_d_swap ext g1 g2, ttest_p_swap ext g1 g2, ?_, ?_⟩
  · show effect_size_label (cohens_d ext g2 g1) = effect_size_label (cohens_d ext g1 g2)
    rw [cohens_d_swap]
    unfold effect_size_label
    rw [npAbs_npNeg]
  · show npLtQ (ttest_p ext g2 g1) (1 / 20) = npLtQ (ttest_p ext g1 g2) (1 / 20)
    rw [ttest_p_swap]

/-- Witness for `compute_statistical_significance_swap` at a concrete
input. -/
theorem compute_statistical_significance_swap_witness :
    (2 ≤ ([0, 2] : List ℚ).length ∧ 2 ≤ ([1, 3] : List ℚ).length ∧
      pooled_sd extId [0, 2] [1, 3] ≠ NpFloat.val 0) ∧
    ((compute_statistical_significance extId [1, 3] [0, 2]).t_statistic
        = npNeg (compute_statistical_significance extId [0, 2] [1, 3]).t_statistic ∧
     (compute_statistical_significance extId [1, 3] [0, 2]).cohens_d
        = npNeg (compute_statistical_significance extId [0, 2] [1, 3]).cohens_d ∧
     (compute_statistical_significance extId [1, 3] [0, 2]).p_value
        = (compute_statistical_significance extId [0, 2] [1, 3]).p_value ∧
     (compute_statistical_significance extId [1, 3] [0, 2]).effect_size
        = (compute_statistical_significance extId [0, 2] [1, 3]).effect_size ∧
     (compute_statistical_significance extId [1, 3] [0, 2]).significant
        = (compute_statistical_significance extId [0, 2] [1, 3]).significant) := by
  have hsd : pooled_sd extId [0, 2] [1, 3] ≠ NpFloat.val 0 := by
    norm_num [pooled_sd, npVarPop, npMul, npAdd, npDiv, npSqrt, extId]
  exact ⟨⟨by norm_num, by norm_num, hsd⟩,
    compute_statistical_significance_swap extId [0, 2] [1, 3]
      (by norm_num) (by norm_num) hsd⟩

/-- Witness for `report_pay_equity_recommendation_iff` at a concrete
input. -/
theorem report_pay_equity_recommendation_iff_witness :
    (inpExample.pay_gap = some pgExample) ∧
    ((∃ rec ∈ (generate_fairness_report "" extId inpExample).summary.recommendations,
        rec.category = "pay_equity" ∧ rec.priority = "high") ↔
      pyMaxD0 (pgExample.gaps.map (fun p => p.2.gap_percentage)) > 5) :=
  ⟨rfl, report_pay_equity_recommendation_iff "" extId inpExample pgExample rfl⟩
